import Mathlib

/-
Shallow embedding of `src/stream.py` (class `Stream`): the real-time
ADS-B / Mode-S EHS aggregation core of the meteo-particle-model repository.

Timestamps and all numeric message fields are modelled as rationals.
Python dicts keyed by strings become functions `String → Option _`;
presence of a dict key becomes `Option.isSome` of the corresponding field.
External pyModeS decoding routines and floating-point library functions
(sqrt, exp, power, trigonometry, magnetic declination) are modelled as
oracle parameters: every theorem below holds for an arbitrary choice of
these oracles, so nothing depends on their numeric behaviour.
-/

namespace MeteoStream

/-- Decoded velocity tuple of an ADS-B message: `pms.adsb.velocity` yields
(speed, track, vertical rate, source tag). -/
structure Velo where
  spd : ℚ
  trk : ℚ
  roc : ℚ
  tag : String
deriving DecidableEq, Repr

/-- Decoded fields of one ADS-B message, as extracted by pyModeS
(`pms.icao`, `pms.adsb.typecode`, `pms.adsb.callsign`, `pms.adsb.velocity`,
`pms.adsb.oe_flag`, `pms.adsb.altitude`). The raw frame itself is carried
along because position decoding consumes stored frames. -/
structure AdsbMsg where
  icao : String
  tc : Nat
  callsign : String
  velocity : Option Velo
  oe : Bool
  altitude : ℚ
deriving DecidableEq, Repr

/-- Result of `pms.bds.infer` restricted to the cases `stream.py`
distinguishes: the string `BDS50`, the string `BDS60`, the ambiguous
string `BDS50,BDS60`, and anything else (including `None`). -/
inductive BdsClass where
  | bds50 : BdsClass
  | bds60 : BdsClass
  | bds5060 : BdsClass
  | other : BdsClass
deriving DecidableEq, Repr

/-- Result of the `pms.bds.is50or60` disambiguation. -/
inductive Bds5060 where
  | b50 : Bds5060
  | b60 : Bds5060
deriving DecidableEq, Repr

/-- Decoded fields of one EHS (Mode-S comm-B) message, as extracted by
pyModeS (`pms.icao`, `pms.df`, `pms.altcode`, `pms.idcode`,
`pms.bds.infer`, `pms.commb.tas50/roll50/ias60/hdg60/mach60`).
`none` models a Python `None` return. -/
structure EhsMsg where
  icao : String
  df : Nat
  altcode : Option ℚ
  idcode : String
  bdsInfer : BdsClass
  tas50 : Option ℚ
  roll50 : Option ℚ
  ias60 : Option ℚ
  hdg60 : Option ℚ
  mach60 : Option ℚ
deriving DecidableEq, Repr

/-- Outcome of the two-frame global position decode
`pms.adsb.position(msg0, msg1, t0, t1, lat0, lon0)`:
it may raise (mix of surface and airborne frames), return `None`
(incompatible latitude zones), or return a latitude/longitude pair. -/
inductive GlobalDecodeResult where
  | exn : GlobalDecodeResult
  | failed : GlobalDecodeResult
  | ok : ℚ × ℚ → GlobalDecodeResult
deriving DecidableEq, Repr

/-- The per-aircraft record `self.acs[icao]`: every optional field models
presence of the corresponding dict key in `stream.py`. -/
structure AC where
  t : ℚ
  magdev : ℚ
  callsign : Option String
  gs : Option ℚ
  trk : Option ℚ
  roc : Option ℚ
  tv : Option ℚ
  frame0 : Option AdsbMsg
  t0 : Option ℚ
  frame1 : Option AdsbMsg
  t1 : Option ℚ
  tpos : Option ℚ
  lat : Option ℚ
  lon : Option ℚ
  alt : Option ℚ
  t50 : Option ℚ
  tas : Option ℚ
  roll : Option ℚ
  t60 : Option ℚ
  ias : Option ℚ
  hdg : Option ℚ
  mach : Option ℚ
deriving DecidableEq, Repr

/-- A fresh record, before any field is written. -/
def emptyAC : AC :=
  { t := 0, magdev := 0, callsign := none, gs := none, trk := none,
    roc := none, tv := none, frame0 := none, t0 := none, frame1 := none,
    t1 := none, tpos := none, lat := none, lon := none, alt := none,
    t50 := none, tas := none, roll := none, t60 := none, ias := none,
    hdg := none, mach := none }

/-- One entry of `self.squawks[squawk][icao]`. -/
structure SquawkRec where
  count : Nat
  ts : ℚ
deriving DecidableEq, Repr

/-- One row of the weather batch built by
`Stream.compute_current_weather` (lines 301-309): timestamp, identity,
position, wind components and temperature. -/
structure Sample where
  ts : ℚ
  icao : String
  lat : ℚ
  lon : ℚ
  alt : ℚ
  wx : ℚ
  wy : ℚ
  temp : ℚ
deriving DecidableEq, Repr

/-- The aircraft state store `self.acs`. -/
def AcsMap : Type := String → Option AC

/-- The squawk occurrence table `self.squawks`, flattened to the
(squawk code, icao) pair key. -/
def SquawkMap : Type := String × String → Option SquawkRec

/-- The mutable state of a `Stream` object. -/
structure StreamState where
  acs : AcsMap
  squawks : SquawkMap
  updated : List String
  weather : List Sample
  t : ℚ
  lat0 : ℚ
  lon0 : ℚ
  correction : Bool

/-- Oracles for the external pyModeS decoding routines that depend on
stored state: single-frame position decode with reference, two-frame
global position decode, BDS 5,0 / 6,0 disambiguation, and the
aircraft-database magnetic-deviation lookup (with its default 0). -/
structure Decoders where
  posWithRef : AdsbMsg → ℚ → ℚ → ℚ × ℚ
  globalPos : AdsbMsg → AdsbMsg → ℚ → ℚ → ℚ → ℚ → GlobalDecodeResult
  is50or60 : EhsMsg → ℚ → ℚ → ℚ → Option Bds5060
  magdevOf : String → ℚ

/-- Python truthiness of an optional numeric value: `None` and `0` are
falsy, everything else truthy (this is the test `if tas and roll:` in
`stream.py`). -/
def truthy : Option ℚ → Bool
  | none => false
  | some x => decide (x ≠ 0)

/-- Lines 166-172 of `stream.py`: `pms.bds.infer`, and for the ambiguous
`BDS50,BDS60` answer the `try`-guarded disambiguation
`pms.bds.is50or60(msg, gs, trk, alt)` (a missing `gs`/`trk`/`alt` key or
a raised exception is swallowed by `except: pass`, and a `None` return
ends up matching neither register branch: both model as `none`). -/
def resolveBds (D : Decoders) (ac : AC) (m : EhsMsg) : Option Bds5060 :=
  match m.bdsInfer with
  | BdsClass.bds50 => some Bds5060.b50
  | BdsClass.bds60 => some Bds5060.b60
  | BdsClass.bds5060 =>
      match ac.gs, ac.trk, ac.alt with
      | some g, some k, some a => D.is50or60 m g k a
      | _, _, _ => none
  | BdsClass.other => none

/-- Lines 166-196 of `stream.py`: register classification of an EHS
message that passed the validation gates, and the conditional write of
`airData50` / `airData60` plus the updated-aircraft buffer append. -/
def applyRegister (D : Decoders) (st : StreamState) (buf : List String)
    (t : ℚ) (m : EhsMsg) : StreamState × List String :=
  match st.acs m.icao with
  | none => (st, buf)
  | some ac =>
    match resolveBds D ac m with
    | some Bds5060.b50 =>
        if truthy m.tas50 && truthy m.roll50 then
          ({ st with acs := (Function.update st.acs m.icao
              (some { ac with t50 := some t, tas := m.tas50, roll := m.roll50 })) },
           buf ++ [m.icao])
        else (st, buf)
    | some Bds5060.b60 =>
        if truthy m.ias60 && truthy m.hdg60 && truthy m.mach60 then
          ({ st with acs := (Function.update st.acs m.icao
              (some { ac with t60 := some t, ias := m.ias60, hdg := m.hdg60,
                              mach := m.mach60 })) },
           buf ++ [m.icao])
        else (st, buf)
    | none => (st, buf)

/-- Lines 130-196 of `stream.py`: processing of one EHS message against
the running (state, local buffer) pair. Unknown identities are skipped;
in correction (validation) mode DF20 replies pass the altitude
cross-check and DF21 replies pass the squawk occurrence gate before
register classification. -/
def processEhsMsg (D : Decoders) (sb : StreamState × List String)
    (p : ℚ × EhsMsg) : StreamState × List String :=
  let st := sb.1
  let buf := sb.2
  let t := p.1
  let m := p.2
  match st.acs m.icao with
  | none => sb
  | some ac =>
    if st.correction ∧ m.df = 20 then
      match ac.alt, m.altcode with
      | some a, some ae =>
          if |a - ae| > 250 then sb else applyRegister D st buf t m
      | _, _ => sb
    else if st.correction ∧ m.df = 21 then
      let key := (m.idcode, m.icao)
      let c := ((st.squawks key).map SquawkRec.count).getD 0 + 1
      let st1 := { st with squawks := (Function.update st.squawks key
        (some { count := c, ts := t })) }
      if c < 10 then (st1, buf) else applyRegister D st1 buf t m
    else applyRegister D st buf t m

/-- Lines 97-99 of `stream.py`: store a position-eligible frame and its
timestamp under its even/odd parity, overwriting the prior frame of the
same parity. -/
def storeFrame (t : ℚ) (m : AdsbMsg) (ac : AC) : AC :=
  if m.oe then { ac with frame1 := some m, t1 := some t }
  else { ac with frame0 := some m, t0 := some t }

/-- Lines 106-119 of `stream.py`: the `try`-guarded two-frame global
decode. Both a raised exception (mixed surface/airborne frames, or a
missing frame key inside the `try`) and a `None` return leave no
position; only an `ok` result yields coordinates. -/
def globalTry (D : Decoders) (lat0 lon0 : ℚ) (ac : AC) : Option (ℚ × ℚ) :=
  match ac.t0, ac.t1 with
  | some u0, some u1 =>
      if |u0 - u1| < 10 then
        match ac.frame0, ac.frame1 with
        | some f0, some f1 =>
            match D.globalPos f0 f1 u0 u1 lat0 lon0 with
            | GlobalDecodeResult.ok ll => some ll
            | _ => none
        | _, _ => none
      else none
  | _, _ => none

/-- Lines 101-121 of `stream.py`: choice of decode strategy after the
frame has been stored — single-frame local-reference decode when the
record holds a position decoded less than 180 s ago, else the two-frame
global decode when both parities are present and close in time, else
nothing. -/
def decodeLatlon (D : Decoders) (lat0 lon0 t : ℚ) (m : AdsbMsg) (ac : AC) :
    Option (ℚ × ℚ) :=
  match ac.tpos with
  | some tp =>
      if t - tp < 180 then
        some (D.posWithRef m (ac.lat.getD 0) (ac.lon.getD 0))
      else globalTry D lat0 lon0 ac
  | none => globalTry D lat0 lon0 ac

/-- Lines 96-127 of `stream.py`: the position block for one ADS-B
message — store the frame under its parity, attempt a decode, and on
success overwrite `lat`, `lon`, `alt` and the position timestamp. -/
def posStep (D : Decoders) (lat0 lon0 t : ℚ) (m : AdsbMsg) (ac : AC) : AC :=
  if 5 ≤ m.tc ∧ m.tc ≤ 18 then
    let ac1 := storeFrame t m ac
    match decodeLatlon D lat0 lon0 t m ac1 with
    | some ll =>
        { ac1 with tpos := some t, lat := some ll.1, lon := some ll.2,
                   alt := some m.altitude }
    | none => ac1
  else ac

/-- Lines 63-127 of `stream.py`: processing of one ADS-B message —
upsert of the record (resolving `magdev` at first sighting), refresh of
`lastSeen`, callsign, the velocity block (whose `continue` statements
skip the position block), and the position block. -/
def processAdsbMsg (D : Decoders) (correction : Bool) (lat0 lon0 : ℚ)
    (acs : AcsMap) (t : ℚ) (m : AdsbMsg) : AcsMap :=
  let ac0 :=
    match acs m.icao with
    | some a => a
    | none => { emptyAC with magdev := (if correction then D.magdevOf m.icao else 0) }
  let ac1 := { ac0 with t := t }
  let ac2 :=
    if 1 ≤ m.tc ∧ m.tc ≤ 4 then { ac1 with callsign := some m.callsign } else ac1
  if (5 ≤ m.tc ∧ m.tc ≤ 8) ∨ m.tc = 19 then
    match m.velocity with
    | none => Function.update acs m.icao (some ac2)
    | some v =>
        if v.tag ≠ "GS" then Function.update acs m.icao (some ac2)
        else
          let ac3 := { ac2 with gs := some v.spd, trk := some v.trk,
                                roc := some v.roc, tv := some t }
          Function.update acs m.icao (some (posStep D lat0 lon0 t m ac3))
  else Function.update acs m.icao (some (posStep D lat0 lon0 t m ac2))

/-- Lines 200-212 of `stream.py`, per record: drop the record when its
last-seen age exceeds 180 s; otherwise clear `t50`/`tas` when the
`airData50` timestamp is more than 5 s old, and `t60`/`ias`/`hdg`/`mach`
when the `airData60` timestamp is more than 5 s old. -/
def evictAC (now : ℚ) (ac : AC) : Option AC :=
  if now - ac.t > 180 then none
  else
    let ac1 :=
      match ac.t50 with
      | some u => if now - u > 5 then { ac with t50 := none, tas := none } else ac
      | none => ac
    let ac2 :=
      match ac1.t60 with
      | some u =>
          if now - u > 5 then
            { ac1 with t60 := none, ias := none, hdg := none, mach := none }
          else ac1
      | none => ac1
    some ac2

/-- Lines 199-212 of `stream.py`: the eviction pass over the whole
aircraft store. -/
def evictAcs (now : ℚ) (acs : AcsMap) : AcsMap :=
  fun i => (acs i).bind (evictAC now)

/-- Lines 217-220 of `stream.py`: purge of (squawk, icao) pairs idle for
more than 300 s. -/
def evictSquawks (now : ℚ) (sq : SquawkMap) : SquawkMap :=
  fun k =>
    match sq k with
    | some r => if now - r.ts > 300 then none else some r
    | none => none

/-- `Stream.add_ehs_updated_aircraft` (line 328): set-union of the
updated-aircraft buffer, modelled on deduplicated lists. -/
def addEhsUpdated (st : StreamState) (buf : List String) : StreamState :=
  { st with updated := (st.updated ++ buf).dedup }

/-- The two ingestion phases of `Stream.process_raw` (lines 55-196):
set `self.t`, apply the ADS-B batch, then apply the EHS batch while
collecting the local updated-aircraft buffer. -/
def ingestCycle (D : Decoders) (st0 : StreamState) (tnow : ℚ)
    (adsb : List (ℚ × AdsbMsg)) (ehs : List (ℚ × EhsMsg)) :
    StreamState × List String :=
  let st1 := { st0 with t := tnow }
  let st2 := { st1 with acs := (List.foldl
    (fun a p => processAdsbMsg D st1.correction st1.lat0 st1.lon0 a p.1 p.2)
    st1.acs adsb) }
  List.foldl (processEhsMsg D) (st2, []) ehs

/-- Lines 198-221 of `stream.py`: the cleanup phase after ingestion —
aircraft eviction, committing the updated-aircraft buffer, and (in
correction mode) squawk-table eviction. -/
def cleanupPhase (sb : StreamState × List String) : StreamState :=
  let st := sb.1
  let stE := { st with acs := evictAcs st.t st.acs }
  let stU := addEhsUpdated stE sb.2
  if stU.correction then { stU with squawks := evictSquawks stU.t stU.squawks }
  else stU

/-- `Stream.process_raw` in full: ingestion phases followed by cleanup. -/
def processRaw (D : Decoders) (st0 : StreamState) (tnow : ℚ)
    (adsb : List (ℚ × AdsbMsg)) (ehs : List (ℚ × EhsMsg)) : StreamState :=
  cleanupPhase (ingestCycle D st0 tnow adsb ehs)

/-- `Stream.get_cached_aircraft` (lines 323-325): the snapshot of all
live aircraft records. -/
def getCachedAircraft (st : StreamState) : AcsMap := st.acs

/-- Modelled from the spec: `lib/aero` is not under `src/`; §4.5 step 3
requires feet-to-meter altitude conversion. Standard value 0.3048 m. -/
def ft : ℚ := 3048 / 10000

/-- Modelled from the spec: `lib/aero` knots-to-m/s conversion
(§4.5 step 3, canonical speed units). Standard value 0.514444 m/s. -/
def kts : ℚ := 514444 / 1000000

/-- Modelled from the spec: `lib/aero` sea-level air density (§4.5 step 5,
ambient/sea-level density). ISA value 1.225 kg/m³. -/
def rho0 : ℚ := 1225 / 1000

/-- Modelled from the spec: `lib/aero` specific gas constant of air
(§4.5 step 5, ideal gas relation). ISA value 287.05 J/(kg·K). -/
def aeroR : ℚ := 28705 / 100

/-- Modelled from the spec: `lib/aero` sea-level reference temperature
(§4.5 step 5, compressible branch). ISA value 288.15 K. -/
def T0 : ℚ := 28815 / 100

/-- Modelled from the spec: `lib/aero` sea-level speed of sound
(§4.5 step 5, compressible branch). ISA value 340.294 m/s. -/
def a0 : ℚ := 340294 / 1000

/-- Oracles for the floating-point library functions used by
`compute_current_weather`: square root, exponential, real power
(`x ** y`), sine, cosine, degree-to-radian conversion, the optional
magnetic declination provider and its availability flag. -/
structure NumOracles where
  sqrt : ℚ → ℚ
  exp : ℚ → ℚ
  rpow : ℚ → ℚ → ℚ
  sin : ℚ → ℚ
  cos : ℚ → ℚ
  radians : ℚ → ℚ
  declination : ℚ → ℚ → ℚ → ℚ
  geoMagSupport : Bool

/-- Lines 258-261 of `stream.py`: the two-segment barometric pressure
from geometric altitude `h` in meters. -/
def pressureAt (O : NumOracles) (h : ℚ) : ℚ :=
  if h < 11000 then
    101325 * O.rpow (1 + ((-65 / 10000) * h) / (28815 / 100))
      ((-981 / 100) / ((-65 / 10000) * (28705 / 100)))
  else
    22632 * O.exp (-((981 / 100) * (h - 11000) / ((28705 / 100) * (4333 / 20))))

/-- Lines 252-268 of `stream.py`: the local temperature estimate, chosen
by Mach regime. -/
def tempOf (O : NumOracles) (ac : AC) : ℚ :=
  let h := ac.alt.getD 0 * ft
  let vtas := ac.tas.getD 0 * kts
  let vias := ac.ias.getD 0 * kts
  let mach := ac.mach.getD 0
  let p := pressureAt O h
  if mach < 3 / 10 then vtas ^ 2 * p / (vias ^ 2 * rho0 * aeroR)
  else vtas ^ 2 * T0 / (mach ^ 2 * a0 ^ 2)

/-- Lines 263-269 of `stream.py`: the regime-derived second true-airspeed
estimate — density-scaled indicated airspeed below Mach 0.3, Mach times
`a0·sqrt(T/T0)` at or above. -/
def vtas2Of (O : NumOracles) (ac : AC) : ℚ :=
  let h := ac.alt.getD 0 * ft
  let vias := ac.ias.getD 0 * kts
  let mach := ac.mach.getD 0
  let p := pressureAt O h
  let temp := tempOf O ac
  if mach < 3 / 10 then
    let rho := p / (aeroR * temp)
    vias * O.sqrt (rho0 / rho)
  else mach * a0 * O.sqrt (temp / T0)

/-- Line 271 of `stream.py`: the final true airspeed used for the air
vector — the directly reported one when the raw `t50` timestamp is
strictly greater than the raw `t60` timestamp, else the derived one. -/
def vaOf (O : NumOracles) (ac : AC) : ℚ :=
  if ac.t50.getD 0 > ac.t60.getD 0 then ac.tas.getD 0 * kts else vtas2Of O ac

/-- Lines 244-250 of `stream.py`: the per-aircraft qualification test of
`compute_current_weather` — presence of `tpos`, `tv`, `t60`, `t50`, `gs`,
freshness of position and both air-data registers relative to the flush
time, and (in correction mode) a roll angle of at most 5 degrees. -/
def qualifies (correction : Bool) (now : ℚ) (ac : AC) : Bool :=
  if ac.tpos.isNone || ac.tv.isNone || ac.t60.isNone || ac.t50.isNone ||
      ac.gs.isNone then false
  else if decide (now - ac.tpos.getD 0 > 5) || decide (now - ac.t60.getD 0 > 5) ||
      decide (now - ac.t50.getD 0 > 5) ||
      (correction && decide (ac.roll.getD 0 > 5)) then false
  else true

/-- Lines 252-309 of `stream.py`, per qualifying aircraft: the emitted
weather row — position, temperature, and the wind vector as the
difference of the ground vector and the air vector (with the optional
declination/mag-deviation heading correction of lines 285-291). -/
def sampleOf (O : NumOracles) (icao : String) (ac : AC) : Sample :=
  let lat := ac.lat.getD 0
  let lon := ac.lon.getD 0
  let alt := ac.alt.getD 0
  let temp := tempOf O ac
  let va := vaOf O ac
  let vg := ac.gs.getD 0 * (5144 / 10000)
  let trkR := O.radians (ac.trk.getD 0)
  let hdgR0 := O.radians (ac.hdg.getD 0)
  let hdgR :=
    if O.geoMagSupport then
      hdgR0 - O.radians (O.declination lat lon alt) + O.radians ac.magdev
    else hdgR0
  { ts := ac.tpos.getD 0, icao := icao, lat := lat, lon := lon, alt := alt,
    wx := vg * O.sin trkR - va * O.sin hdgR,
    wy := vg * O.cos trkR - va * O.cos hdgR,
    temp := temp }

/-- `Stream.get_updated_aircraft` (lines 333-340): the identities marked
since the last flush that still have a live record. -/
def getUpdatedAircraft (st : StreamState) : List (String × AC) :=
  st.updated.filterMap (fun i => (st.acs i).map (fun a => (i, a)))

/-- `Stream.compute_current_weather` (lines 225-316): build the weather
batch over the drained UpdatedSet and reset the buffer
(`reset_updated_aircraft`, lines 342-344). Returns the batch together
with the post-flush state. -/
def computeCurrentWeather (O : NumOracles) (st : StreamState) :
    List Sample × StreamState :=
  let samples := (getUpdatedAircraft st).filterMap
    (fun p => if qualifies st.correction st.t p.2 then some (sampleOf O p.1 p.2)
              else none)
  (samples, { st with weather := samples, updated := [] })

/-- A trivial instantiation of the decoding oracles, used to evaluate
the model on concrete inputs. -/
def D0 : Decoders :=
  { posWithRef := fun _ a b => (a, b),
    globalPos := fun _ _ _ _ a b => GlobalDecodeResult.ok (a, b),
    is50or60 := fun _ _ _ _ => some Bds5060.b50,
    magdevOf := fun _ => 0 }

/-- A trivial instantiation of the numeric oracles, used to evaluate the
model on concrete inputs. -/
def O0 : NumOracles :=
  { sqrt := fun x => x, exp := fun x => x, rpow := fun x _ => x,
    sin := fun x => x, cos := fun x => x, radians := fun x => x,
    declination := fun _ _ _ => 0, geoMagSupport := false }

/-- The empty aircraft store. -/
def emptyAcs : AcsMap := fun _ => none

/-- The empty squawk table. -/
def emptySquawks : SquawkMap := fun _ => none

/-- A freshly constructed stream state (`Stream.__init__`). -/
def st0 : StreamState :=
  { acs := emptyAcs, squawks := emptySquawks, updated := [], weather := [],
    t := 0, lat0 := 0, lon0 := 0, correction := false }

/-- C10: an EHS message whose identity is not in the aircraft store is
silently discarded — no record is created, no squawk counter is touched,
and the whole state (and the local buffer) is left unchanged. -/
theorem ehs_unknown_identity_discarded (D : Decoders) (st : StreamState)
    (buf : List String) (t : ℚ) (m : EhsMsg)
    (hout : st.acs m.icao = none) :
    processEhsMsg D (st, buf) (t, m) = (st, buf) := by
  unfold processEhsMsg
  simp [hout]

/-- An EHS message used to exercise the unknown-identity path. -/
def mC10 : EhsMsg :=
  { icao := "A", df := 21, altcode := none, idcode := "7700",
    bdsInfer := BdsClass.bds50, tas50 := some 200, roll50 := some 3,
    ias60 := none, hdg60 := none, mach60 := none }

/-- Witness for C10: on the empty store the message changes nothing. -/
theorem ehs_unknown_identity_discarded_witness :
    processEhsMsg D0 (st0, []) (1, mC10) = (st0, []) :=
  ehs_unknown_identity_discarded D0 st0 [] 1 mC10 rfl

/-- C5: in validation mode a DF20 altitude reply is discarded when the
record has no ADS-B-derived altitude, discarded when the recorded and
reply altitudes differ by more than 250 (so a difference of 251 is
discarded), and otherwise proceeds to register classification (so a
difference of exactly 250 is accepted). -/
theorem df20_altitude_crosscheck (D : Decoders) (st : StreamState)
    (buf : List String) (t : ℚ) (m : EhsMsg) (ac : AC) (ae : ℚ)
    (hcorr : st.correction = true) (hdf : m.df = 20)
    (hin : st.acs m.icao = some ac) (hae : m.altcode = some ae) :
    (ac.alt = none → processEhsMsg D (st, buf) (t, m) = (st, buf)) ∧
    (∀ a, ac.alt = some a → |a - ae| > 250 →
        processEhsMsg D (st, buf) (t, m) = (st, buf)) ∧
    (∀ a, ac.alt = some a → |a - ae| ≤ 250 →
        processEhsMsg D (st, buf) (t, m) = applyRegister D st buf t m) := by
  unfold processEhsMsg
  simp only [hin, hae, hcorr, hdf]
  refine ⟨?_, ?_, ?_⟩
  · intro h
    simp [h]
  · intro a h hgt
    simp [h, hgt]
  · intro a h hle
    simp [h, not_lt.mpr hle]

/-- Aircraft record for the C5 witness: ADS-B altitude 1000 on file. -/
def acC5 : AC := { emptyAC with t := 1, alt := some 1000 }

/-- Stream state for the C5 witness: validation mode, one aircraft. -/
def stC5 : StreamState :=
  { st0 with correction := true,
             acs := (fun i => if i = "A" then some acC5 else none) }

/-- DF20 reply for the C5 witness: reply altitude 1250, a difference of
exactly 250 from the recorded altitude. -/
def mC5 : EhsMsg :=
  { icao := "A", df := 20, altcode := some 1250, idcode := "0000",
    bdsInfer := BdsClass.other, tas50 := none, roll50 := none,
    ias60 := none, hdg60 := none, mach60 := none }

/-- Witness for C5: a difference of exactly 250 is accepted and the
message reaches register classification. -/
theorem df20_altitude_crosscheck_witness :
    processEhsMsg D0 (stC5, []) (2, mC5) = applyRegister D0 stC5 [] 2 mC5 :=
  (df20_altitude_crosscheck D0 stC5 [] 2 mC5 acC5 1250 rfl rfl rfl rfl).2.2
    1000 rfl (by norm_num)

/-- C4: in validation mode every DF21 reply of a known identity first
increments the (squawk, icao) occurrence counter and refreshes its
timestamp; only then is the threshold tested — below 10 the message is
discarded (the counter update persists but register classification is
never reached), and from the 10th matching message on it proceeds to
register classification on the counter-updated state. -/
theorem df21_squawk_gate (D : Decoders) (st : StreamState) (buf : List String)
    (t : ℚ) (m : EhsMsg)
    (hcorr : st.correction = true) (hdf : m.df = 21)
    (hin : (st.acs m.icao).isSome = true) :
    processEhsMsg D (st, buf) (t, m) =
      (let c := ((st.squawks (m.idcode, m.icao)).map SquawkRec.count).getD 0 + 1
       let st1 : StreamState := { st with squawks := (Function.update st.squawks
         (m.idcode, m.icao) (some { count := c, ts := t })) }
       if c < 10 then (st1, buf) else applyRegister D st1 buf t m) := by
  obtain ⟨ac, hac⟩ := Option.isSome_iff_exists.mp hin
  unfold processEhsMsg
  simp [hac, hcorr, hdf]

/-- Aircraft record for the C4 witness. -/
def acC4 : AC := { emptyAC with t := 1 }

/-- Stream state for the C4 witness: validation mode, one aircraft, and
the ("7700", "A") pair already seen 8 times. -/
def stC4 : StreamState :=
  { st0 with correction := true,
             acs := (fun i => if i = "A" then some acC4 else none),
             squawks := (fun k =>
               if k = ("7700", "A") then some { count := 8, ts := 0 } else none) }

/-- DF21 reply for the C4 witness. -/
def mC4 : EhsMsg :=
  { icao := "A", df := 21, altcode := none, idcode := "7700",
    bdsInfer := BdsClass.bds50, tas50 := some 200, roll50 := some 3,
    ias60 := none, hdg60 := none, mach60 := none }

/-- The expected state after the C4 witness message: counter bumped to 9,
timestamp refreshed, nothing else touched. -/
def stC4a : StreamState :=
  { stC4 with squawks := (Function.update stC4.squawks ("7700", "A")
      (some { count := 9, ts := 3 })) }

/-- Witness for C4: the 9th sighting updates the counter and timestamp
but is discarded before register classification. -/
theorem df21_squawk_gate_witness :
    processEhsMsg D0 (stC4, []) (3, mC4) = (stC4a, []) := by
  have h := df21_squawk_gate D0 stC4 [] 3 mC4 rfl rfl rfl
  rw [h]
  rfl

theorem applyRegister_t (D : Decoders) (st : StreamState) (buf : List String)
    (t : ℚ) (m : EhsMsg) : (applyRegister D st buf t m).1.t = st.t := by
  unfold applyRegister
  split
  · rfl
  · split
    · split <;> rfl
    · split <;> rfl
    · rfl

theorem processEhsMsg_t (D : Decoders) (sb : StreamState × List String)
    (p : ℚ × EhsMsg) : (processEhsMsg D sb p).1.t = sb.1.t := by
  unfold processEhsMsg
  rcases sb with ⟨st, buf⟩
  rcases p with ⟨t, m⟩
  dsimp only
  split
  · rfl
  · split
    · split
      · split <;> simp [applyRegister_t]
      · rfl
    · split
      · split <;> simp [applyRegister_t]
      · simp [applyRegister_t]

theorem foldl_ehs_t (D : Decoders) (ehs : List (ℚ × EhsMsg))
    (sb : StreamState × List String) :
    (List.foldl (processEhsMsg D) sb ehs).1.t = sb.1.t := by
  induction ehs generalizing sb with
  | nil => rfl
  | cons p l ih => rw [List.foldl_cons, ih, processEhsMsg_t]

theorem ingestCycle_t (D : Decoders) (st : StreamState) (tnow : ℚ)
    (adsb : List (ℚ × AdsbMsg)) (ehs : List (ℚ × EhsMsg)) :
    (ingestCycle D st tnow adsb ehs).1.t = tnow := by
  unfold ingestCycle
  rw [foldl_ehs_t]

theorem cleanupPhase_acs (sb : StreamState × List String) :
    (cleanupPhase sb).acs = evictAcs sb.1.t sb.1.acs := by
  unfold cleanupPhase addEhsUpdated
  dsimp only
  split <;> rfl

/-- C2: any record whose last-seen age exceeds 180 s at the cycle time is
removed by the cycle's eviction phase and is absent from the cached
snapshot once the cycle completes; any record with age at most 180 s
survives eviction. -/
theorem eviction_at_180s (D : Decoders) (st : StreamState) (tnow : ℚ)
    (adsb : List (ℚ × AdsbMsg)) (ehs : List (ℚ × EhsMsg)) (i : String) (ac : AC)
    (hmid : (ingestCycle D st tnow adsb ehs).1.acs i = some ac) :
    (tnow - ac.t > 180 →
      getCachedAircraft (processRaw D st tnow adsb ehs) i = none) ∧
    (tnow - ac.t ≤ 180 →
      (getCachedAircraft (processRaw D st tnow adsb ehs) i).isSome = true) := by
  have hacs : getCachedAircraft (processRaw D st tnow adsb ehs) i
      = evictAC tnow ac := by
    unfold processRaw getCachedAircraft
    rw [cleanupPhase_acs, ingestCycle_t]
    unfold evictAcs
    rw [hmid]
    rfl
  constructor
  · intro hOld
    rw [hacs]
    unfold evictAC
    rw [if_pos hOld]
  · intro hLive
    rw [hacs]
    unfold evictAC
    rw [if_neg (not_lt.mpr hLive)]
    rfl

/-- Aircraft record for the C2 witness, last seen at time 0. -/
def acC2 : AC := { emptyAC with t := 0 }

/-- Stream state for the C2 witness. -/
def stC2 : StreamState :=
  { st0 with acs := (fun i => if i = "A" then some acC2 else none) }

/-- Witness for C2: a cycle at time 200 with empty batches evicts a
record last seen at time 0 (age 200 > 180). -/
theorem eviction_at_180s_witness :
    getCachedAircraft (processRaw D0 stC2 200 [] []) "A" = none :=
  (eviction_at_180s D0 stC2 200 [] [] "A" acC2 rfl).1 (by norm_num [acC2, emptyAC])

/-- Aircraft record for the C3 counterexample: fresh record whose
`airData50` (timestamp 0, true airspeed 200, roll 3) is stale at time
10, with `roll` present. -/
def acC3 : AC :=
  { emptyAC with
    t := 8
    t50 := some 0
    tas := some 200
    roll := some 3 }

/-- Aircraft store for the C3 counterexample. -/
def acsC3 : AcsMap := fun i => if i = "A" then some acC3 else none

/-- Counterexample to C3: at time 10 the record's `airData50` timestamp
is 10 s old, so `t50` and `tas` are cleared — but `roll` survives with
its old value, contradicting the claim that the entire `airData50`
sub-structure (trueAirspeed, roll, timestamp) is cleared. -/
theorem airdata50_roll_not_cleared_cex :
    (evictAcs 10 acsC3 "A").map AC.t50 = some none ∧
    (evictAcs 10 acsC3 "A").map AC.tas = some none ∧
    (evictAcs 10 acsC3 "A").map AC.roll = some (some 3) := by
  refine ⟨?_, ?_, ?_⟩ <;>
    (simp only [evictAcs, acsC3, acC3, emptyAC, evictAC]; norm_num)

/-- C3 (amended): for every record surviving eviction (age at most
180 s), a stale `airData50` has its timestamp and trueAirspeed cleared
while `roll` is left in place, a stale `airData60` has its entire
sub-structure (indicatedAirspeed, heading, mach, timestamp) cleared, and
every other field — including `roll` — is untouched; the parent record
is not removed. -/
theorem airdata_eviction_amended (now : ℚ) (acs : AcsMap) (i : String)
    (ac : AC) (h : acs i = some ac) (hlive : now - ac.t ≤ 180) :
    (evictAcs now acs i).map AC.t = some ac.t ∧
    (evictAcs now acs i).map AC.magdev = some ac.magdev ∧
    (evictAcs now acs i).map AC.callsign = some ac.callsign ∧
    (evictAcs now acs i).map AC.gs = some ac.gs ∧
    (evictAcs now acs i).map AC.trk = some ac.trk ∧
    (evictAcs now acs i).map AC.roc = some ac.roc ∧
    (evictAcs now acs i).map AC.tv = some ac.tv ∧
    (evictAcs now acs i).map AC.frame0 = some ac.frame0 ∧
    (evictAcs now acs i).map AC.t0 = some ac.t0 ∧
    (evictAcs now acs i).map AC.frame1 = some ac.frame1 ∧
    (evictAcs now acs i).map AC.t1 = some ac.t1 ∧
    (evictAcs now acs i).map AC.tpos = some ac.tpos ∧
    (evictAcs now acs i).map AC.lat = some ac.lat ∧
    (evictAcs now acs i).map AC.lon = some ac.lon ∧
    (evictAcs now acs i).map AC.alt = some ac.alt ∧
    (evictAcs now acs i).map AC.roll = some ac.roll ∧
    (evictAcs now acs i).map AC.t50 =
      some (match ac.t50 with
            | some u => if now - u > 5 then none else some u
            | none => none) ∧
    (evictAcs now acs i).map AC.tas =
      some (match ac.t50 with
            | some u => if now - u > 5 then none else ac.tas
            | none => ac.tas) ∧
    (evictAcs now acs i).map AC.t60 =
      some (match ac.t60 with
            | some u => if now - u > 5 then none else some u
            | none => none) ∧
    (evictAcs now acs i).map AC.ias =
      some (match ac.t60 with
            | some u => if now - u > 5 then none else ac.ias
            | none => ac.ias) ∧
    (evictAcs now acs i).map AC.hdg =
      some (match ac.t60 with
            | some u => if now - u > 5 then none else ac.hdg
            | none => ac.hdg) ∧
    (evictAcs now acs i).map AC.mach =
      some (match ac.t60 with
            | some u => if now - u > 5 then none else ac.mach
            | none => ac.mach) := by
  unfold evictAcs
  rw [h, Option.some_bind]
  unfold evictAC
  rw [if_neg (not_lt.mpr hlive)]
  rcases h50 : ac.t50 with _ | u50 <;> simp only [h50]
  · rcases h60 : ac.t60 with _ | u60 <;> simp only [h60]
    · simp [h50, h60]
    · by_cases hc6 : now - u60 > 5 <;> simp [hc6, h50, h60]
  · by_cases hc5 : now - u50 > 5
    · simp only [if_pos hc5]
      rcases h60 : ac.t60 with _ | u60 <;> simp only [h60]
      · simp [hc5, h50, h60]
      · by_cases hc6 : now - u60 > 5 <;> simp [hc5, hc6, h50, h60]
    · simp only [if_neg hc5]
      rcases h60 : ac.t60 with _ | u60 <;> simp only [h60]
      · simp [hc5, h50, h60]
      · by_cases hc6 : now - u60 > 5 <;> simp [hc5, hc6, h50, h60]

/-- Witness for the amended C3: on the concrete store the stale
`airData50` loses `t50` and `tas` while `roll` stays `some 3`. -/
theorem airdata_eviction_amended_witness :
    (evictAcs 10 acsC3 "A").map AC.roll = some (some 3) ∧
    (evictAcs 10 acsC3 "A").map AC.t50 = some none := by
  have h := airdata_eviction_amended 10 acsC3 "A" acC3 rfl
    (by norm_num [acC3, emptyAC])
  obtain ⟨-, -, -, -, -, -, -, -, -, -, -, -, -, -, -, hroll, ht50, -⟩ := h
  refine ⟨?_, ?_⟩
  · rw [hroll]
    norm_num [acC3]
  · rw [ht50]
    norm_num [acC3]

/-- C7: the flush always clears the UpdatedSet (so an immediately
following flush with no new updates returns an empty batch), and a flush
over an empty or non-qualifying UpdatedSet returns an empty batch. -/
theorem flush_clears_updated_set (O O2 : NumOracles) (st : StreamState) :
    ((∀ st2 : StreamState, (computeCurrentWeather O st2).2.updated = []) ∧
     (computeCurrentWeather O2 (computeCurrentWeather O st).2).1 = []) ∧
    ((∀ i ∈ st.updated, ∀ ac, st.acs i = some ac →
        qualifies st.correction st.t ac = false) →
      (computeCurrentWeather O st).1 = []) := by
  refine ⟨⟨fun st2 => rfl, rfl⟩, ?_⟩
  intro hnq
  unfold computeCurrentWeather
  dsimp only
  rw [List.filterMap_eq_nil_iff]
  intro p hp
  unfold getUpdatedAircraft at hp
  rw [List.mem_filterMap] at hp
  obtain ⟨j, hj, hjp⟩ := hp
  rw [Option.map_eq_some'] at hjp
  obtain ⟨a, hja, hpa⟩ := hjp
  subst hpa
  rw [hnq j hj a hja]
  rfl

/-- Stream state for the C7 witness: one stale identity in the
UpdatedSet whose record no longer exists. -/
def stC7 : StreamState := { st0 with updated := ["Z"] }

/-- Witness for C7: flushing the non-qualifying UpdatedSet returns an
empty batch. -/
theorem flush_clears_updated_set_witness :
    (computeCurrentWeather O0 stC7).1 = [] :=
  (flush_clears_updated_set O0 O0 stC7).2
    (by
      intro i hi ac hac
      simp [stC7, st0, emptyAcs] at hac)

theorem truthy_iff (o : Option ℚ) : truthy o = true ↔ ∃ v, o = some v ∧ v ≠ 0 := by
  cases o <;> simp [truthy]

/-- Aircraft record for the C8 counterexample. -/
def acC8 : AC := { emptyAC with t := 1 }

/-- Stream state for the C8 counterexample. -/
def stC8 : StreamState :=
  { st0 with acs := (fun i => if i = "B" then some acC8 else none) }

/-- A BDS 5,0 reply for the C8 counterexample: both fields are present
(non-null) but the roll angle is exactly 0. -/
def mC8 : EhsMsg :=
  { icao := "B", df := 20, altcode := none, idcode := "0000",
    bdsInfer := BdsClass.bds50, tas50 := some 250, roll50 := some 0,
    ias60 := none, hdg60 := none, mach60 := none }

/-- Counterexample to C8: a register-A reply whose extracted fields are
both present (non-null) — true airspeed 250, roll 0 — is nevertheless
discarded with no state change, because the code tests Python truthiness
(`if tas and roll:`) and `0` is falsy. -/
theorem register_nonnull_cex :
    mC8.tas50 = some 250 ∧ mC8.roll50 = some 0 ∧
    resolveBds D0 acC8 mC8 = some Bds5060.b50 ∧
    processEhsMsg D0 (stC8, []) (3, mC8) = (stC8, []) := by
  refine ⟨rfl, rfl, rfl, ?_⟩
  rfl

/-- C8 (amended): a reply classified as register A writes `airData50`
(trueAirspeed, roll, timestamp) and marks the identity in the UpdatedSet
if and only if both extracted fields are truthy — present and non-zero —
and otherwise is discarded with no state change; likewise register B
writes `airData60` (indicatedAirspeed, heading, mach, timestamp) and
marks the identity if and only if all three extracted fields are present
and non-zero. -/
theorem register_write_truthy_amended (D : Decoders) (st : StreamState)
    (buf : List String) (t : ℚ) (m : EhsMsg) (ac : AC)
    (hin : st.acs m.icao = some ac) :
    (resolveBds D ac m = some Bds5060.b50 →
      ((∃ v w, m.tas50 = some v ∧ v ≠ 0 ∧ m.roll50 = some w ∧ w ≠ 0) →
        applyRegister D st buf t m =
          ({ st with acs := (Function.update st.acs m.icao
              (some { ac with t50 := some t, tas := m.tas50,
                              roll := m.roll50 })) },
           buf ++ [m.icao])) ∧
      (¬(∃ v w, m.tas50 = some v ∧ v ≠ 0 ∧ m.roll50 = some w ∧ w ≠ 0) →
        applyRegister D st buf t m = (st, buf))) ∧
    (resolveBds D ac m = some Bds5060.b60 →
      ((∃ v w x, m.ias60 = some v ∧ v ≠ 0 ∧ m.hdg60 = some w ∧ w ≠ 0 ∧
          m.mach60 = some x ∧ x ≠ 0) →
        applyRegister D st buf t m =
          ({ st with acs := (Function.update st.acs m.icao
              (some { ac with t60 := some t, ias := m.ias60, hdg := m.hdg60,
                              mach := m.mach60 })) },
           buf ++ [m.icao])) ∧
      (¬(∃ v w x, m.ias60 = some v ∧ v ≠ 0 ∧ m.hdg60 = some w ∧ w ≠ 0 ∧
          m.mach60 = some x ∧ x ≠ 0) →
        applyRegister D st buf t m = (st, buf))) := by
  unfold applyRegister
  rw [hin]
  dsimp only
  constructor
  · intro hb
    rw [hb]
    dsimp only
    constructor
    · rintro ⟨v, w, hv, hv0, hw, hw0⟩
      have h1 : truthy m.tas50 = true := (truthy_iff _).mpr ⟨v, hv, hv0⟩
      have h2 : truthy m.roll50 = true := (truthy_iff _).mpr ⟨w, hw, hw0⟩
      simp [h1, h2]
    · intro hne
      have h1 : ¬(truthy m.tas50 = true ∧ truthy m.roll50 = true) := by
        rintro ⟨ha, hb2⟩
        obtain ⟨v, hv, hv0⟩ := (truthy_iff _).mp ha
        obtain ⟨w, hw, hw0⟩ := (truthy_iff _).mp hb2
        exact hne ⟨v, w, hv, hv0, hw, hw0⟩
      rw [if_neg (by simpa [Bool.and_eq_true] using h1)]
  · intro hb
    rw [hb]
    dsimp only
    constructor
    · rintro ⟨v, w, x, hv, hv0, hw, hw0, hx, hx0⟩
      have h1 : truthy m.ias60 = true := (truthy_iff _).mpr ⟨v, hv, hv0⟩
      have h2 : truthy m.hdg60 = true := (truthy_iff _).mpr ⟨w, hw, hw0⟩
      have h3 : truthy m.mach60 = true := (truthy_iff _).mpr ⟨x, hx, hx0⟩
      simp [h1, h2, h3]
    · intro hne
      have h1 : ¬(truthy m.ias60 = true ∧ truthy m.hdg60 = true ∧
          truthy m.mach60 = true) := by
        rintro ⟨ha, hb2, hc⟩
        obtain ⟨v, hv, hv0⟩ := (truthy_iff _).mp ha
        obtain ⟨w, hw, hw0⟩ := (truthy_iff _).mp hb2
        obtain ⟨x, hx, hx0⟩ := (truthy_iff _).mp hc
        exact hne ⟨v, w, x, hv, hv0, hw, hw0, hx, hx0⟩
      rw [if_neg (by simpa [Bool.and_eq_true, and_assoc] using h1)]

/-- Aircraft record for the C8 amended witness. -/
def acC8b : AC := { emptyAC with t := 1 }

/-- Stream state for the C8 amended witness. -/
def stC8b : StreamState :=
  { st0 with acs := (fun i => if i = "B" then some acC8b else none) }

/-- A BDS 5,0 reply with both fields present and non-zero. -/
def mC8b : EhsMsg :=
  { icao := "B", df := 20, altcode := none, idcode := "0000",
    bdsInfer := BdsClass.bds50, tas50 := some 230, roll50 := some (-2),
    ias60 := none, hdg60 := none, mach60 := none }

/-- Witness for the amended C8: truthy fields are written and the
identity is marked in the updated buffer. -/
theorem register_write_truthy_amended_witness :
    (applyRegister D0 stC8b [] 4 mC8b).2 = ["B"] := by
  have h := ((register_write_truthy_amended D0 stC8b [] 4 mC8b acC8b rfl).1
    rfl).1 ⟨230, -2, rfl, by norm_num, rfl, by norm_num⟩
  rw [h]
  rfl

/-- C1: a flush emits a WeatherSample for an identity in the drained
UpdatedSet only if its record has position, velocity, airData50 and
airData60 all present (the code keys `tpos`, `tv`, `gs`, `t50`, `t60`),
all three timestamps within 5 s of the flush time, and — in validation
mode — a roll angle of at most 5 degrees; an identity failing any
condition contributes no sample. -/
theorem flush_emits_only_if_qualified (O : NumOracles) (st : StreamState)
    (i : String) (ac : AC) (hmem : i ∈ st.updated) (hac : st.acs i = some ac)
    (hs : ∃ s ∈ (computeCurrentWeather O st).1, s.icao = i) :
    ac.tpos.isSome = true ∧ ac.tv.isSome = true ∧ ac.gs.isSome = true ∧
    ac.t50.isSome = true ∧ ac.t60.isSome = true ∧
    (∀ u, ac.tpos = some u → st.t - u ≤ 5) ∧
    (∀ u, ac.t50 = some u → st.t - u ≤ 5) ∧
    (∀ u, ac.t60 = some u → st.t - u ≤ 5) ∧
    (st.correction = true → ∀ r, ac.roll = some r → r ≤ 5) := by
  obtain ⟨s, hsmem, hsi⟩ := hs
  unfold computeCurrentWeather at hsmem
  dsimp only at hsmem
  rw [List.mem_filterMap] at hsmem
  obtain ⟨p, hp, hfp⟩ := hsmem
  unfold getUpdatedAircraft at hp
  rw [List.mem_filterMap] at hp
  obtain ⟨j, hj, hjp⟩ := hp
  rw [Option.map_eq_some'] at hjp
  obtain ⟨a, hja, hpa⟩ := hjp
  subst hpa
  by_cases hq : qualifies st.correction st.t a = true
  · rw [if_pos hq] at hfp
    have hsd : s = sampleOf O j a := (Option.some.inj hfp).symm
    have hji : j = i := by
      rw [hsd] at hsi
      simpa [sampleOf] using hsi
    subst hji
    rw [hac] at hja
    have haa : a = ac := (Option.some.inj hja).symm
    subst haa
    unfold qualifies at hq
    split_ifs at hq with h1 h2
    simp only [Bool.or_eq_true, not_or, Option.isNone_iff_eq_none] at h1
    obtain ⟨⟨⟨⟨hp1, hp2⟩, hp3⟩, hp4⟩, hp5⟩ := h1
    simp only [Bool.or_eq_true, not_or, decide_eq_true_eq,
      Bool.and_eq_true] at h2
    obtain ⟨⟨⟨hf1, hf2⟩, hf3⟩, hf4⟩ := h2
    refine ⟨?_, ?_, ?_, ?_, ?_, ?_, ?_, ?_, ?_⟩
    · simpa [Option.isSome_iff_ne_none] using hp1
    · simpa [Option.isSome_iff_ne_none] using hp2
    · simpa [Option.isSome_iff_ne_none] using hp5
    · simpa [Option.isSome_iff_ne_none] using hp4
    · simpa [Option.isSome_iff_ne_none] using hp3
    · intro u hu
      rw [hu] at hf1
      simpa using not_lt.mp hf1
    · intro u hu
      rw [hu] at hf3
      simpa using not_lt.mp hf3
    · intro u hu
      rw [hu] at hf2
      simpa using not_lt.mp hf2
    · intro hcorr r hr
      by_contra hgt
      rw [hr] at hf4
      exact hf4 ⟨hcorr, by simpa using not_le.mp hgt⟩
  · rw [if_neg hq] at hfp
    cases hfp

/-- Aircraft record for the C1 witness: everything present and fresh at
flush time 3. -/
def acC1 : AC :=
  { emptyAC with
    t := 3
    gs := some 250
    trk := some 90
    roc := some 0
    tv := some 3
    tpos := some 3
    lat := some 52
    lon := some 4
    alt := some 30000
    t50 := some 3
    tas := some 240
    roll := some 2
    t60 := some 2
    ias := some 180
    hdg := some 88
    mach := some (7 / 10) }

/-- Stream state for the C1 witness. -/
def stC1 : StreamState :=
  { st0 with
    t := 3
    updated := ["W"]
    acs := (fun i => if i = "W" then some acC1 else none) }

/-- Witness for C1: the qualifying identity "W" produced a sample, and
the theorem recovers presence of its position timestamp. -/
theorem flush_emits_only_if_qualified_witness : acC1.tpos.isSome = true :=
  (flush_emits_only_if_qualified O0 stC1 "W" acC1
    (by simp [stC1, st0])
    (by simp [stC1, st0])
    ⟨sampleOf O0 "W" acC1, by
      refine ⟨?_, rfl⟩
      unfold computeCurrentWeather getUpdatedAircraft
      dsimp only
      norm_num [stC1, st0, qualifies, acC1, emptyAC]
      simp⟩).1

/-- C9: for a qualifying aircraft the final true airspeed used for the
air vector is the directly reported one exactly when the raw `t50`
timestamp is strictly greater than the raw `t60` timestamp (absolute
values, not ages), and otherwise it is the regime-derived second
estimate: density-scaled indicated airspeed below Mach 0.3, Mach times
the local speed of sound `a0·sqrt(T/T0)` at or above. -/
theorem final_tas_selection (O : NumOracles) (corr : Bool) (now : ℚ)
    (ac : AC) (_hq : qualifies corr now ac = true) (a50 a60 : ℚ)
    (h50 : ac.t50 = some a50) (h60 : ac.t60 = some a60) :
    vaOf O ac = (if a50 > a60 then ac.tas.getD 0 * kts else vtas2Of O ac) ∧
    (ac.mach.getD 0 < 3 / 10 →
      vtas2Of O ac = ac.ias.getD 0 * kts *
        O.sqrt (rho0 /
          (pressureAt O (ac.alt.getD 0 * ft) / (aeroR * tempOf O ac)))) ∧
    (ac.mach.getD 0 ≥ 3 / 10 →
      vtas2Of O ac = ac.mach.getD 0 * (a0 * O.sqrt (tempOf O ac / T0))) := by
  refine ⟨?_, ?_, ?_⟩
  · unfold vaOf
    rw [h50, h60]
    simp
  · intro hm
    unfold vtas2Of
    dsimp only
    rw [if_pos hm]
  · intro hm
    unfold vtas2Of
    dsimp only
    rw [if_neg (not_lt.mpr hm), mul_assoc]

/-- Aircraft record for the C9 witness: qualifying, with `t50 = 3`
newer than `t60 = 2`. -/
def acC9 : AC :=
  { emptyAC with
    t := 3
    gs := some 250
    trk := some 90
    roc := some 0
    tv := some 3
    tpos := some 3
    lat := some 52
    lon := some 4
    alt := some 30000
    t50 := some 3
    tas := some 240
    roll := some 2
    t60 := some 2
    ias := some 180
    hdg := some 88
    mach := some (7 / 10) }

/-- Witness for C9: with `t50 = 3 > t60 = 2` the directly reported true
airspeed is selected. -/
theorem final_tas_selection_witness :
    vaOf O0 acC9 = acC9.tas.getD 0 * kts := by
  have h := (final_tas_selection O0 false 3 acC9
    (by norm_num [qualifies, acC9, emptyAC]) 3 2 rfl rfl).1
  rw [h]
  norm_num

/-- C6: for a position-eligible frame (typecode 5-18) the frame is
stored under its parity, overwriting only that parity's slot; then, with
strict priority: a record holding a position decoded less than 180 s ago
gets the single-frame local-reference decode against its last known
lat/lon (always successful, overwriting lat, lon, alt and the position
timestamp together); otherwise, when both parities are stored with
timestamps less than 10 s apart, the two-frame global decode anchored at
the receiver reference is attempted — a raised or failed decode is
swallowed leaving the prior position untouched, a successful one
overwrites lat/lon/alt/timestamp together; otherwise no decode occurs. -/
theorem position_frame_decode (D : Decoders) (lat0 lon0 t : ℚ) (m : AdsbMsg)
    (ac : AC) (htc : 5 ≤ m.tc ∧ m.tc ≤ 18) :
    ((m.oe = true →
        storeFrame t m ac = { ac with frame1 := some m, t1 := some t }) ∧
     (m.oe = false →
        storeFrame t m ac = { ac with frame0 := some m, t0 := some t })) ∧
    (∀ tp, (storeFrame t m ac).tpos = some tp → t - tp < 180 →
      posStep D lat0 lon0 t m ac =
        { storeFrame t m ac with
          tpos := some t
          lat := some (D.posWithRef m ((storeFrame t m ac).lat.getD 0)
            ((storeFrame t m ac).lon.getD 0)).1
          lon := some (D.posWithRef m ((storeFrame t m ac).lat.getD 0)
            ((storeFrame t m ac).lon.getD 0)).2
          alt := some m.altitude }) ∧
    ((∀ tp, (storeFrame t m ac).tpos = some tp → ¬(t - tp < 180)) →
      (∀ u0 u1 f0 f1,
        (storeFrame t m ac).t0 = some u0 → (storeFrame t m ac).t1 = some u1 →
        |u0 - u1| < 10 →
        (storeFrame t m ac).frame0 = some f0 →
        (storeFrame t m ac).frame1 = some f1 →
        (∀ ll, D.globalPos f0 f1 u0 u1 lat0 lon0 = GlobalDecodeResult.ok ll →
          posStep D lat0 lon0 t m ac =
            { storeFrame t m ac with
                tpos := some t
                lat := some ll.1
                lon := some ll.2
                alt := some m.altitude }) ∧
        (D.globalPos f0 f1 u0 u1 lat0 lon0 = GlobalDecodeResult.exn →
          posStep D lat0 lon0 t m ac = storeFrame t m ac) ∧
        (D.globalPos f0 f1 u0 u1 lat0 lon0 = GlobalDecodeResult.failed →
          posStep D lat0 lon0 t m ac = storeFrame t m ac)) ∧
      (((storeFrame t m ac).t0 = none ∨ (storeFrame t m ac).t1 = none ∨
          (∀ u0 u1, (storeFrame t m ac).t0 = some u0 →
            (storeFrame t m ac).t1 = some u1 → ¬(|u0 - u1| < 10))) →
        posStep D lat0 lon0 t m ac = storeFrame t m ac)) := by
  have hts : posStep D lat0 lon0 t m ac =
      (match decodeLatlon D lat0 lon0 t m (storeFrame t m ac) with
       | some ll =>
          { storeFrame t m ac with
              tpos := some t
              lat := some ll.1
              lon := some ll.2
              alt := some m.altitude }
       | none => storeFrame t m ac) := by
    unfold posStep
    rw [if_pos htc]
  refine ⟨⟨?_, ?_⟩, ?_, ?_⟩
  · intro h
    unfold storeFrame
    rw [h]
    rfl
  · intro h
    unfold storeFrame
    rw [h]
    rfl
  · intro tp htp hfresh
    rw [hts]
    have hdl : decodeLatlon D lat0 lon0 t m (storeFrame t m ac) =
        some (D.posWithRef m ((storeFrame t m ac).lat.getD 0)
          ((storeFrame t m ac).lon.getD 0)) := by
      unfold decodeLatlon
      simp only [htp]
      rw [if_pos hfresh]
    rw [hdl]
  · intro hstale
    have hdl : decodeLatlon D lat0 lon0 t m (storeFrame t m ac) =
        globalTry D lat0 lon0 (storeFrame t m ac) := by
      unfold decodeLatlon
      rcases htp : (storeFrame t m ac).tpos with _ | tp <;> simp only [htp]
      rw [if_neg (hstale tp htp)]
    constructor
    · intro u0 u1 f0 f1 h0 h1 hlt hf0 hf1
      have hgt : globalTry D lat0 lon0 (storeFrame t m ac) =
          (match D.globalPos f0 f1 u0 u1 lat0 lon0 with
           | GlobalDecodeResult.ok ll => some ll
           | GlobalDecodeResult.exn => none
           | GlobalDecodeResult.failed => none) := by
        unfold globalTry
        simp only [h0, h1, hf0, hf1]
        rw [if_pos hlt]
        cases D.globalPos f0 f1 u0 u1 lat0 lon0 <;> rfl
      refine ⟨?_, ?_, ?_⟩
      · intro ll hok
        rw [hts, hdl, hgt, hok]
      · intro hex
        rw [hts, hdl, hgt, hex]
      · intro hex
        rw [hts, hdl, hgt, hex]
    · intro hcase
      have hgt : globalTry D lat0 lon0 (storeFrame t m ac) = none := by
        unfold globalTry
        rcases hcase with h0 | h1 | hfar
        · simp only [h0]
        · rcases ht0 : (storeFrame t m ac).t0 with _ | u0 <;>
            simp only [ht0, h1]
        · rcases ht0 : (storeFrame t m ac).t0 with _ | u0 <;>
            rcases ht1 : (storeFrame t m ac).t1 with _ | u1 <;>
            simp only [ht0, ht1]
          rw [if_neg (hfar u0 u1 ht0 ht1)]
      rw [hts, hdl, hgt]

/-- An even-parity position frame for the C6 witness. -/
def mC6 : AdsbMsg :=
  { icao := "P", tc := 11, callsign := "", velocity := none, oe := false,
    altitude := 33000 }

/-- Witness for C6: on a fresh record with no prior position and only
one stored parity, the frame is stored but no decode occurs. -/
theorem position_frame_decode_witness :
    posStep D0 0 0 1 mC6 emptyAC = storeFrame 1 mC6 emptyAC := by
  have h := (position_frame_decode D0 0 0 1 mC6 emptyAC
    (by norm_num [mC6])).2.2
    (by
      intro tp htp
      simp [storeFrame, mC6, emptyAC] at htp)
  exact h.2 (Or.inr (Or.inl (by simp [storeFrame, mC6, emptyAC])))

end MeteoStream
